import Mathlib

/-!
Verification of the Razorpay payment app and invoices app core logic,
shallowly embedded from the TypeScript source.

Modelling conventions:
* JS strings are `List Char` (abbreviated `Str`); string literals appear as
  `"...".toList`.
* Byte buffers are `List Nat` with values `< 256`.
* Fallible operations (code that can throw) return `Except Str _`; a
  `try/catch` block is a `match` on that result.
* External collaborators (the DynamoDB document client, the Razorpay SDK,
  node's AES-GCM cipher) are passed in as explicit outcome values or as a
  structure of functions, so a handler is a pure function of its inputs.
-/

namespace BrightStore

/-- JS strings modelled as lists of characters. -/
abbrev Str := List Char

/-- JS `String.prototype.slice(start)` with a single (possibly negative)
integer argument.  A negative `start` counts from the end, clamped at 0;
a non-negative `start` is clamped at the length.  Note that in JS
`-0 === 0`, which this model captures because `-(0 : Int) = 0`. -/
def jsSlice (s : Str) (start : Int) : Str :=
  let from_ : Int := if start < 0 then max ((s.length : Int) + start) 0 else min start (s.length : Int)
  s.drop from_.toNat

/-- JS `String.prototype.split(sep)` for a single-character separator. -/
def splitOnChar (sep : Char) : Str → List Str
  | [] => [[]]
  | c :: rest =>
    match splitOnChar sep rest with
    | [] => [[]]
    | h :: t => if c = sep then [] :: h :: t else (c :: h) :: t

/-- JS `Math.round` on a rational: round half toward positive infinity. -/
def jsRound (q : ℚ) : Int := Int.floor (q + 1/2)

/-- `Number(x.toFixed(2))` on a non-negative rational amount: round to two
decimal places, half away from zero (here: half up, amounts are ≥ 0). -/
def toFixed2 (q : ℚ) : ℚ := (jsRound (q * 100) : ℚ) / 100

-- ═══════════════════════════════════════════════════════════════════════════
-- razorpay-settings.ts : data model
-- ═══════════════════════════════════════════════════════════════════════════

/-- `type PaymentMode = "test" | "live"`. -/
inductive PaymentMode | test | live
deriving DecidableEq, Repr

/-- `type PaymentAction = "authorize" | "authorize_capture"`. -/
inductive PaymentAction | authorize | authorize_capture
deriving DecidableEq, Repr

/-- `interface RazorpaySettings` from razorpay-settings.ts. -/
structure RazorpaySettings where
  enabled : Bool
  title : Str
  description : Str
  mode : PaymentMode
  testKeyId : Str
  testKeySecret : Str
  testWebhookSecret : Str
  liveKeyId : Str
  liveKeySecret : Str
  liveWebhookSecret : Str
  paymentAction : PaymentAction
  magicCheckout : Bool
  debugMode : Bool
  updatedAt : Str
deriving DecidableEq, Repr

/-- `interface MaskedRazorpaySettings`: same shape plus the two
is-configured flags. -/
structure MaskedRazorpaySettings where
  enabled : Bool
  title : Str
  description : Str
  mode : PaymentMode
  testKeyId : Str
  testKeySecret : Str
  testWebhookSecret : Str
  liveKeyId : Str
  liveKeySecret : Str
  liveWebhookSecret : Str
  paymentAction : PaymentAction
  magicCheckout : Bool
  debugMode : Bool
  updatedAt : Str
  hasTestKeys : Bool
  hasLiveKeys : Bool
deriving DecidableEq, Repr

/-- `DEFAULT_SETTINGS`; its `updatedAt` is the module-load time, passed in
here as `loadTime`. -/
def defaultSettings (loadTime : Str) : RazorpaySettings where
  enabled := false
  title := "Credit Card / Debit Card / UPI / Net Banking".toList
  description := "Pay securely using Razorpay".toList
  mode := .test
  testKeyId := []
  testKeySecret := []
  testWebhookSecret := []
  liveKeyId := []
  liveKeySecret := []
  liveWebhookSecret := []
  paymentAction := .authorize_capture
  magicCheckout := false
  debugMode := false
  updatedAt := loadTime

-- ═══════════════════════════════════════════════════════════════════════════
-- razorpay-settings.ts : masking
-- ═══════════════════════════════════════════════════════════════════════════

/-- `maskValue(value, showLast)`.  The source default for `showLast` is 4;
`maskSettings` calls it with `0` for the secret fields.  Note the source
computes `"****" + value.slice(-showLast)`, and for `showLast = 0` the JS
index `-0` equals `0`, i.e. `slice` returns the whole string. -/
def maskValue (value : Str) (showLast : Nat) : Str :=
  if value = [] then []
  else if value.length ≤ showLast then "****".toList
  else "****".toList ++ jsSlice value (-(showLast : Int))

/-- `maskKeyId(value)`: key ids of shape `rzp_test_abcd1234` show
`parts[0]_parts[1]_****` plus the last 4 characters; anything else falls
back to `maskValue(value)` with the default `showLast = 4`. -/
def maskKeyId (value : Str) : Str :=
  if value = [] then []
  else
    let parts := splitOnChar '_' value
    if 3 ≤ parts.length then
      parts.getD 0 [] ++ '_' :: parts.getD 1 [] ++ "_****".toList ++ jsSlice value (-4)
    else maskValue value 4

/-- `maskSettings(settings)`: the dashboard-facing masked projection. -/
def maskSettings (settings : RazorpaySettings) : MaskedRazorpaySettings where
  enabled := settings.enabled
  title := settings.title
  description := settings.description
  mode := settings.mode
  testKeyId := maskKeyId settings.testKeyId
  testKeySecret := maskValue settings.testKeySecret 0
  testWebhookSecret := maskValue settings.testWebhookSecret 0
  liveKeyId := maskKeyId settings.liveKeyId
  liveKeySecret := maskValue settings.liveKeySecret 0
  liveWebhookSecret := maskValue settings.liveWebhookSecret 0
  paymentAction := settings.paymentAction
  magicCheckout := settings.magicCheckout
  debugMode := settings.debugMode
  updatedAt := settings.updatedAt
  hasTestKeys := !settings.testKeyId.isEmpty && !settings.testKeySecret.isEmpty
  hasLiveKeys := !settings.liveKeyId.isEmpty && !settings.liveKeySecret.isEmpty

-- ═══════════════════════════════════════════════════════════════════════════
-- razorpay-settings.ts : getSettings / saveSettings
-- ═══════════════════════════════════════════════════════════════════════════

/-- The DynamoDB item shape read back by `getSettings`: fields defaulted
with `??` are optional, the six credential fields are stored strings
(empty = unset, otherwise ciphertext). -/
structure StoredSettingsItem where
  enabled : Option Bool
  title : Option Str
  description : Option Str
  mode : Option PaymentMode
  testKeyId : Str
  testKeySecret : Str
  testWebhookSecret : Str
  liveKeyId : Str
  liveKeySecret : Str
  liveWebhookSecret : Str
  paymentAction : Option PaymentAction
  magicCheckout : Option Bool
  debugMode : Option Bool
  updatedAt : Option Str
deriving DecidableEq, Repr

/-- The `item.field ? decrypt(item.field) : ""` pattern of `getSettings`. -/
def decryptField (dec : Str → Except Str Str) (v : Str) : Except Str Str :=
  if v ≠ [] then dec v else pure []

/-- `getSettings(docClient, saleorApiUrl)`.  `backend` is the outcome of the
`GetCommand` (`error` = the client threw, `ok none` = no `result.Item`);
`dec` is the `decrypt` function (which may itself throw — inside the `try`,
so a decryption failure also lands in the `catch`).  Every failure path
returns `{ ...DEFAULT_SETTINGS }`. -/
def getSettings (dec : Str → Except Str Str) (loadTime : Str)
    (backend : Except Str (Option StoredSettingsItem)) : RazorpaySettings :=
  match backend with
  | .error _ => defaultSettings loadTime
  | .ok none => defaultSettings loadTime
  | .ok (some item) =>
    let d := defaultSettings loadTime
    let decrypted : Except Str RazorpaySettings := do
      let tki ← decryptField dec item.testKeyId
      let tks ← decryptField dec item.testKeySecret
      let tws ← decryptField dec item.testWebhookSecret
      let lki ← decryptField dec item.liveKeyId
      let lks ← decryptField dec item.liveKeySecret
      let lws ← decryptField dec item.liveWebhookSecret
      pure {
        enabled := item.enabled.getD d.enabled
        title := item.title.getD d.title
        description := item.description.getD d.description
        mode := item.mode.getD d.mode
        testKeyId := tki
        testKeySecret := tks
        testWebhookSecret := tws
        liveKeyId := lki
        liveKeySecret := lks
        liveWebhookSecret := lws
        paymentAction := item.paymentAction.getD d.paymentAction
        magicCheckout := item.magicCheckout.getD d.magicCheckout
        debugMode := item.debugMode.getD d.debugMode
        updatedAt := item.updatedAt.getD d.updatedAt }
    match decrypted with
    | .ok r => r
    | .error _ => defaultSettings loadTime

/-- `Partial<RazorpaySettings>`: each field optionally present. -/
structure SettingsPatch where
  enabled : Option Bool
  title : Option Str
  description : Option Str
  mode : Option PaymentMode
  testKeyId : Option Str
  testKeySecret : Option Str
  testWebhookSecret : Option Str
  liveKeyId : Option Str
  liveKeySecret : Option Str
  liveWebhookSecret : Option Str
  paymentAction : Option PaymentAction
  magicCheckout : Option Bool
  debugMode : Option Bool
  updatedAt : Option Str
deriving DecidableEq, Repr

/-- The patch with every field absent. -/
def SettingsPatch.empty : SettingsPatch :=
  ⟨none, none, none, none, none, none, none, none, none, none, none, none, none, none⟩

/-- The merge step of `saveSettings`:
`{ ...existing, ...settings, updatedAt: new Date().toISOString() }` —
fields present in the patch overlay the existing record, and `updatedAt`
is always rewritten to the save time. -/
def mergeSettings (existing : RazorpaySettings) (patch : SettingsPatch) (now : Str) :
    RazorpaySettings where
  enabled := patch.enabled.getD existing.enabled
  title := patch.title.getD existing.title
  description := patch.description.getD existing.description
  mode := patch.mode.getD existing.mode
  testKeyId := patch.testKeyId.getD existing.testKeyId
  testKeySecret := patch.testKeySecret.getD existing.testKeySecret
  testWebhookSecret := patch.testWebhookSecret.getD existing.testWebhookSecret
  liveKeyId := patch.liveKeyId.getD existing.liveKeyId
  liveKeySecret := patch.liveKeySecret.getD existing.liveKeySecret
  liveWebhookSecret := patch.liveWebhookSecret.getD existing.liveWebhookSecret
  paymentAction := patch.paymentAction.getD existing.paymentAction
  magicCheckout := patch.magicCheckout.getD existing.magicCheckout
  debugMode := patch.debugMode.getD existing.debugMode
  updatedAt := now

/-- The `merged.field ? encrypt(merged.field) : ""` pattern of
`saveSettings`. -/
def encryptField (enc : Str → Except Str Str) (v : Str) : Except Str Str :=
  if v ≠ [] then enc v else pure []

/-- The item `saveSettings` writes: credential fields encrypted when
non-empty, everything else stored as-is. -/
def itemToStore (enc : Str → Except Str Str) (merged : RazorpaySettings) :
    Except Str StoredSettingsItem := do
  let tki ← encryptField enc merged.testKeyId
  let tks ← encryptField enc merged.testKeySecret
  let tws ← encryptField enc merged.testWebhookSecret
  let lki ← encryptField enc merged.liveKeyId
  let lks ← encryptField enc merged.liveKeySecret
  let lws ← encryptField enc merged.liveWebhookSecret
  pure {
    enabled := some merged.enabled
    title := some merged.title
    description := some merged.description
    mode := some merged.mode
    testKeyId := tki
    testKeySecret := tks
    testWebhookSecret := tws
    liveKeyId := lki
    liveKeySecret := lks
    liveWebhookSecret := lws
    paymentAction := some merged.paymentAction
    magicCheckout := some merged.magicCheckout
    debugMode := some merged.debugMode
    updatedAt := some merged.updatedAt }

/-- `saveSettings(docClient, saleorApiUrl, settings)`: reads the existing
record (through the failure-swallowing `getSettings`), merges the patch
over it, stores the encrypted item and returns the merged record. -/
def saveSettings (dec enc : Str → Except Str Str) (loadTime : Str)
    (backend : Except Str (Option StoredSettingsItem))
    (patch : SettingsPatch) (now : Str) :
    Except Str (RazorpaySettings × StoredSettingsItem) := do
  let existing := getSettings dec loadTime backend
  let merged := mergeSettings existing patch now
  let item ← itemToStore enc merged
  pure (merged, item)

-- ═══════════════════════════════════════════════════════════════════════════
-- node crypto primitives used by the source: hex, utf8, SHA-256, HMAC
-- ═══════════════════════════════════════════════════════════════════════════

/-- Lower-case hex digit for a value `< 16`. -/
def hexDigit (n : Nat) : Char := "0123456789abcdef".toList.getD n '0'

/-- One byte as two lower-case hex characters (`Buffer.toString("hex")`). -/
def byteHex (b : Nat) : Str := [hexDigit (b / 16), hexDigit (b % 16)]

/-- A byte buffer as its hex string. -/
def bytesToHex (bs : List Nat) : Str := (bs.map byteHex).flatten

/-- Value of a lower-case hex character. -/
def hexVal (c : Char) : Nat :=
  if '0' ≤ c ∧ c ≤ '9' then c.toNat - 48
  else if 'a' ≤ c ∧ c ≤ 'f' then c.toNat - 87
  else 0

/-- Parse a hex string back into bytes (`Buffer.from(s, "hex")`). -/
def hexToBytes : Str → List Nat
  | c1 :: c2 :: rest => (hexVal c1 * 16 + hexVal c2) :: hexToBytes rest
  | _ => []

/-- UTF-8 encoding of one scalar value (what `Buffer.from(s, "utf8")` does
per character). -/
def utf8EncodeChar (c : Char) : List Nat :=
  let n := c.toNat
  if n < 128 then [n]
  else if n < 2048 then [192 + n / 64, 128 + n % 64]
  else if n < 65536 then [224 + n / 4096, 128 + n / 64 % 64, 128 + n % 64]
  else [240 + n / 262144, 128 + n / 4096 % 64, 128 + n / 64 % 64, 128 + n % 64]

/-- UTF-8 encoding of a string. -/
def utf8Str (s : Str) : List Nat := (s.map utf8EncodeChar).flatten

/-- UTF-8 decoding worker: `acc` is the partially assembled scalar value,
`k` the number of continuation bytes still expected. -/
def utf8DecodeAux : Nat → Nat → List Nat → Str
  | _, _, [] => []
  | acc, k + 1, b :: bs =>
    let acc2 := acc * 64 + (b - 128)
    if k = 0 then Char.ofNat acc2 :: utf8DecodeAux 0 0 bs
    else utf8DecodeAux acc2 k bs
  | _, 0, b :: bs =>
    if b < 128 then Char.ofNat b :: utf8DecodeAux 0 0 bs
    else if b < 224 then utf8DecodeAux (b - 192) 1 bs
    else if b < 240 then utf8DecodeAux (b - 224) 2 bs
    else utf8DecodeAux (b - 240) 3 bs

/-- UTF-8 decoding (`buffer.toString("utf8")`), on well-formed input. -/
def utf8Decode (bs : List Nat) : Str := utf8DecodeAux 0 0 bs

/-- Truncate to a 32-bit word. -/
def w32 (n : Nat) : Nat := n % 4294967296

/-- 32-bit modular addition. -/
def add32 (a b : Nat) : Nat := w32 (a + b)

/-- 32-bit right rotation. -/
def rotr32 (r x : Nat) : Nat := w32 (x / 2 ^ r + x % 2 ^ r * 2 ^ (32 - r))

/-- Logical right shift. -/
def shr32 (r x : Nat) : Nat := x / 2 ^ r

/-- The 64 SHA-256 round constants. -/
def sha256K : List Nat :=
  [0x428A2F98, 0x71374491, 0xB5C0FBCF, 0xE9B5DBA5,
   0x3956C25B, 0x59F111F1, 0x923F82A4, 0xAB1C5ED5,
   0xD807AA98, 0x12835B01, 0x243185BE, 0x550C7DC3,
   0x72BE5D74, 0x80DEB1FE, 0x9BDC06A7, 0xC19BF174,
   0xE49B69C1, 0xEFBE4786, 0x0FC19DC6, 0x240CA1CC,
   0x2DE92C6F, 0x4A7484AA, 0x5CB0A9DC, 0x76F988DA,
   0x983E5152, 0xA831C66D, 0xB00327C8, 0xBF597FC7,
   0xC6E00BF3, 0xD5A79147, 0x06CA6351, 0x14292967,
   0x27B70A85, 0x2E1B2138, 0x4D2C6DFC, 0x53380D13,
   0x650A7354, 0x766A0ABB, 0x81C2C92E, 0x92722C85,
   0xA2BFE8A1, 0xA81A664B, 0xC24B8B70, 0xC76C51A3,
   0xD192E819, 0xD6990624, 0xF40E3585, 0x106AA070,
   0x19A4C116, 0x1E376C08, 0x2748774C, 0x34B0BCB5,
   0x391C0CB3, 0x4ED8AA4A, 0x5B9CCA4F, 0x682E6FF3,
   0x748F82EE, 0x78A5636F, 0x84C87814, 0x8CC70208,
   0x90BEFFFA, 0xA4506CEB, 0xBEF9A3F7, 0xC67178F2]

/-- The SHA-256 initial hash state. -/
def sha256H0 : List Nat :=
  [0x6A09E667, 0xBB67AE85, 0x3C6EF372, 0xA54FF53A,
   0x510E527F, 0x9B05688C, 0x1F83D9AB, 0x5BE0CD19]

/-- Big-endian bytes of `n`, `k` bytes wide. -/
def natBytesBE (k n : Nat) : List Nat :=
  (List.range k).map fun i => n / 256 ^ (k - 1 - i) % 256

/-- Group bytes into big-endian 32-bit words. -/
def bytesToWordsBE : List Nat → List Nat
  | b0 :: b1 :: b2 :: b3 :: rest => (((b0 * 256 + b1) * 256 + b2) * 256 + b3) :: bytesToWordsBE rest
  | _ => []

/-- Big-endian bytes of one 32-bit word. -/
def wordBytesBE (w : Nat) : List Nat := [w / 16777216 % 256, w / 65536 % 256, w / 256 % 256, w % 256]

/-- SHA-256 padding: `0x80`, zeros to 56 mod 64, then the 64-bit bit length. -/
def sha256Pad (msg : List Nat) : List Nat :=
  let zeros := (120 - (msg.length + 1) % 64) % 64
  msg ++ 0x80 :: List.replicate zeros 0 ++ natBytesBE 8 (msg.length * 8)

/-- Split a byte list into 64-byte blocks; the fuel (one unit per block,
`l.length` is always enough since every block consumes at least one byte)
keeps the recursion structural. -/
def chunks64Fuel : Nat → List Nat → List (List Nat)
  | 0, _ => []
  | _, [] => []
  | fuel + 1, b :: bs => ((b :: bs).take 64) :: chunks64Fuel fuel ((b :: bs).drop 64)

/-- Split a byte list into 64-byte blocks. -/
def chunks64 (l : List Nat) : List (List Nat) := chunks64Fuel l.length l

/-- Extend 16 message-schedule words to 64. -/
def sha256Schedule (ws0 : List Nat) : List Nat :=
  (List.range 48).foldl
    (fun w i =>
      let j := i + 16
      let x15 := w.getD (j - 15) 0
      let x2 := w.getD (j - 2) 0
      let s0 := rotr32 7 x15 ^^^ rotr32 18 x15 ^^^ shr32 3 x15
      let s1 := rotr32 17 x2 ^^^ rotr32 19 x2 ^^^ shr32 10 x2
      w ++ [add32 (add32 (w.getD (j - 16) 0) s0) (add32 (w.getD (j - 7) 0) s1)])
    ws0

/-- One SHA-256 block compression. -/
def sha256Compress (h : List Nat) (block : List Nat) : List Nat :=
  let ws := sha256Schedule (bytesToWordsBE block)
  let final := (List.range 64).foldl
    (fun st i =>
      match st with
      | [a, b, c, d, e, f, g, hh] =>
        let s1 := rotr32 6 e ^^^ rotr32 11 e ^^^ rotr32 25 e
        let ch := (e &&& f) ^^^ ((e ^^^ 4294967295) &&& g)
        let t1 := add32 hh (add32 s1 (add32 ch (add32 (sha256K.getD i 0) (ws.getD i 0))))
        let s0 := rotr32 2 a ^^^ rotr32 13 a ^^^ rotr32 22 a
        let mj := (a &&& b) ^^^ (a &&& c) ^^^ (b &&& c)
        let t2 := add32 s0 mj
        [add32 t1 t2, a, b, c, add32 d t1, e, f, g]
      | other => other)
    h
  List.zipWith add32 h final

/-- SHA-256 of a byte message, as 32 digest bytes. -/
def sha256 (msg : List Nat) : List Nat :=
  let blocks := chunks64 (sha256Pad msg)
  ((blocks.foldl sha256Compress sha256H0).map wordBytesBE).flatten

/-- HMAC-SHA256 over bytes (`crypto.createHmac("sha256", key)`). -/
def hmacSha256 (key msg : List Nat) : List Nat :=
  let k1 := if 64 < key.length then sha256 key else key
  let k2 := k1 ++ List.replicate (64 - k1.length) 0
  let ipadded := k2.map fun b => b ^^^ 0x36
  let opadded := k2.map fun b => b ^^^ 0x5c
  sha256 (opadded ++ sha256 (ipadded ++ msg))

/-- HMAC-SHA256 of string key and message, hex digest — the
`crypto.createHmac("sha256", secret).update(msg).digest("hex")` pipeline. -/
def hmacSha256Hex (key msg : Str) : Str :=
  bytesToHex (hmacSha256 (utf8Str key) (utf8Str msg))

-- ═══════════════════════════════════════════════════════════════════════════
-- razorpay-settings.ts : encrypt / decrypt (AES-256-GCM via node crypto)
-- ═══════════════════════════════════════════════════════════════════════════

/-- Abstract model of node's AES-256-GCM cipher (`crypto.createCipheriv` /
`crypto.createDecipheriv`), an external runtime collaborator.  `encb` and
`decb` map (key, iv, data) to the output bytes; `tagf` gives the
16-byte auth tag for a (key, iv, ciphertext).  The inversion and
byte-range laws the source relies on are hypotheses of the round-trip
theorem and are satisfied by any real GCM implementation. -/
structure GcmModel where
  encb : List Nat → List Nat → List Nat → List Nat
  decb : List Nat → List Nat → List Nat → List Nat
  tagf : List Nat → List Nat → List Nat → List Nat

/-- `getEncryptionKey()`: SHA-256 of the `SECRET_KEY` env var, which must
be present. -/
def getEncryptionKey (secretKey : Str) : Except Str (List Nat) :=
  if secretKey = [] then
    .error "SECRET_KEY environment variable is required for encryption".toList
  else .ok (sha256 (utf8Str secretKey))

/-- `encrypt(plaintext)`: empty input short-circuits to `""`; otherwise the
result is `ivHex:tagHex:cipherHex`.  The random 12-byte `iv` is passed in
as the source of randomness. -/
def encrypt (C : GcmModel) (secretKey : Str) (iv : List Nat) (plaintext : Str) :
    Except Str Str :=
  if plaintext = [] then .ok []
  else do
    let key ← getEncryptionKey secretKey
    let encBytes := C.encb key iv (utf8Str plaintext)
    let tag := C.tagf key iv encBytes
    pure (bytesToHex iv ++ ':' :: bytesToHex tag ++ ':' :: bytesToHex encBytes)

/-- `decrypt(ciphertext)`: empty input short-circuits to `""`; otherwise
split on `:` into exactly three parts, check the auth tag, decipher. -/
def decrypt (C : GcmModel) (secretKey : Str) (ciphertext : Str) : Except Str Str :=
  if ciphertext = [] then .ok []
  else do
    let key ← getEncryptionKey secretKey
    let parts := splitOnChar ':' ciphertext
    if parts.length = 3 then
      let iv := hexToBytes (parts.getD 0 [])
      let tag := hexToBytes (parts.getD 1 [])
      let encBytes := hexToBytes (parts.getD 2 [])
      if tag = C.tagf key iv encBytes then pure (utf8Decode (C.decb key iv encBytes))
      else .error "Unsupported state or unable to authenticate data".toList
    else .error "Invalid encrypted data format".toList

-- ═══════════════════════════════════════════════════════════════════════════
-- transaction-log.ts : logTransaction / getTransactionLogs
-- ═══════════════════════════════════════════════════════════════════════════

/-- `type TransactionType`; `init` stands for the source's "initialize"
tag, and the process-session handler additionally logs entries with
`type: "process"`, so the model includes that tag too. -/
inductive TransactionType | init | charge | refund | webhook | process
deriving DecidableEq, Repr

/-- `type TransactionStatus = "success" | "failed" | "pending"`. -/
inductive TransactionStatus | success | failed | pending
deriving DecidableEq, Repr

/-- `interface TransactionLogEntry`. -/
structure TransactionLogEntry where
  timestamp : Str
  type : TransactionType
  status : TransactionStatus
  amount : ℚ
  currency : Str
  razorpayOrderId : Option Str
  razorpayPaymentId : Option Str
  saleorOrderId : Option Str
  saleorTransactionId : Option Str
  error : Option Str
  rawResponse : Option Str
  mode : PaymentMode
deriving DecidableEq, Repr

/-- One tenant's log partition, newest entry first (the model of the
timestamp-keyed descending sort order). -/
abbrev LogStore := List TransactionLogEntry

/-- `logTransaction(docClient, saleorApiUrl, entry)`: attempts the
`PutCommand` (`writeOk` says whether the backend write succeeds); any
failure is caught and swallowed — the function always completes normally,
and on success the entry is prepended (newest first). -/
def logTransaction (writeOk : Bool) (store : LogStore) (entry : TransactionLogEntry) :
    Except Str LogStore :=
  match (if writeOk then Except.ok (entry :: store)
         else Except.error "write failed".toList : Except Str LogStore) with
  | .ok s => .ok s
  | .error _ => .ok store

/-- The store after a `logTransaction` call (which never throws). -/
def logTransactionRun (writeOk : Bool) (store : LogStore) (entry : TransactionLogEntry) :
    LogStore :=
  match logTransaction writeOk store entry with
  | .ok s => s
  | .error _ => store

/-- The raw outcome of the DynamoDB `QueryCommand` in `getTransactionLogs`. -/
structure RawQueryResult where
  items : List TransactionLogEntry
  lastEvaluatedKey : Option Nat
  count : Nat
deriving DecidableEq, Repr

/-- Model of the DynamoDB query semantics: `entries` is the partition in
descending SK order, `start` the decoded `ExclusiveStartKey` position; the
query returns at most `limit` items from there, `Count` = number of items
returned, `LastEvaluatedKey` present exactly when entries remain. -/
def dynamoQuery (entries : List TransactionLogEntry) (start limit : Nat) : RawQueryResult :=
  let page := (entries.drop start).take limit
  { items := page
    lastEvaluatedKey :=
      if start + page.length < entries.length then some (start + page.length) else none
    count := page.length }

/-- The value `getTransactionLogs` resolves with. -/
structure LogsResult where
  logs : List TransactionLogEntry
  nextKey : Option Nat
  count : Nat
deriving DecidableEq, Repr

/-- `getTransactionLogs(docClient, saleorApiUrl, options)`: fetch one raw
page (of at most `limit` entries), then client-side filter by `type`;
`count` is `result.Count` (the pre-filter page size); backend errors are
caught and return an empty result. -/
def getTransactionLogs (queryOutcome : Except Str RawQueryResult)
    (typeFilter : Option TransactionType) : LogsResult :=
  match queryOutcome with
  | .error _ => { logs := [], nextKey := none, count := 0 }
  | .ok result =>
    let logs := result.items
    let logs := match typeFilter with
      | some t => logs.filter fun l => l.type == t
      | none => logs
    { logs := logs, nextKey := result.lastEvaluatedKey, count := result.count }

-- ═══════════════════════════════════════════════════════════════════════════
-- JS truthiness helpers for payload fields
-- ═══════════════════════════════════════════════════════════════════════════

/-- `!x` truthiness for an optional string: `undefined` and `""` are falsy. -/
def strTruthy (v : Option Str) : Option Str :=
  match v with
  | some s => if s = [] then none else some s
  | none => none

/-- `x || d` for an optional string: `undefined` and `""` fall back. -/
def jsOrStr (v : Option Str) (d : Str) : Str :=
  match strTruthy v with
  | some s => s
  | none => d

/-- `x || 0` for an optional number (`undefined` and `0` both give `0`). -/
def jsOrZero (v : Option ℚ) : ℚ :=
  match v with
  | some x => x
  | none => 0

-- ═══════════════════════════════════════════════════════════════════════════
-- getRazorpayClient (razorpay-settings.ts)
-- ═══════════════════════════════════════════════════════════════════════════

/-- `getRazorpayClient`: select the (keyId, keySecret) pair — live keys in
live mode when both set, else test keys when both set, else the env vars —
and throw when the result is incomplete.  The settings are returned
alongside, as in the source. -/
def getRazorpayClient (settings : RazorpaySettings) (envKeyId envKeySecret : Str) :
    Except Str ((Str × Str) × RazorpaySettings) :=
  let pair :=
    if settings.mode = .live ∧ settings.liveKeyId ≠ [] ∧ settings.liveKeySecret ≠ [] then
      (settings.liveKeyId, settings.liveKeySecret)
    else if settings.testKeyId ≠ [] ∧ settings.testKeySecret ≠ [] then
      (settings.testKeyId, settings.testKeySecret)
    else (envKeyId, envKeySecret)
  if pair.1 = [] ∨ pair.2 = [] then
    .error "Razorpay API keys not configured".toList
  else .ok (pair, settings)

-- ═══════════════════════════════════════════════════════════════════════════
-- transaction-process-session handler
-- ═══════════════════════════════════════════════════════════════════════════

/-- The result codes a sync payment webhook responds with. -/
inductive TransactionResultCode | CHARGE_SUCCESS | CHARGE_FAILURE | CHARGE_ACTION_REQUIRED
deriving DecidableEq, Repr

/-- The `payload.data` sent by the storefront to `transactionProcess`. -/
structure ProcessData where
  razorpay_payment_id : Option Str
  razorpay_order_id : Option Str
  razorpay_signature : Option Str
deriving DecidableEq, Repr

/-- The JSON body of the process-session response. -/
structure ProcessResponse where
  pspReference : Str
  result : TransactionResultCode
  amount : ℚ
  actions : List Str
  externalUrl : Option Str
  message : Str
deriving DecidableEq, Repr

/-- Response plus the log entries the handler attempted to append. -/
structure ProcessOutcome where
  response : ProcessResponse
  logged : List TransactionLogEntry
deriving DecidableEq, Repr

/-- The key-secret selection of the process handler: live mode requires the
stored live secret; test mode takes the test secret or the env fallback. -/
def selectKeySecret (settings : RazorpaySettings) (envKeySecret : Str) : Except Str Str :=
  if settings.mode = .live then
    if settings.liveKeySecret = [] then
      .error "Razorpay Live Key Secret is missing while in Live mode".toList
    else .ok settings.liveKeySecret
  else .ok (if settings.testKeySecret ≠ [] then settings.testKeySecret else envKeySecret)

/-- The transaction-process-session handler.  `settings` is the stored
settings record for the tenant (the `getSettings` read inside
`getRazorpayClient`); the response is always HTTP 200.  The `catch` block
responds `CHARGE_FAILURE` with the order id (or `"unknown"`) and logs a
failed `process` entry with mode `"test"`. -/
def transactionProcessSession (settings : RazorpaySettings) (envKeyId envKeySecret : Str)
    (actionAmount : Option ℚ) (actionCurrency : Option Str)
    (data : Option ProcessData) (now : Str) : ProcessOutcome :=
  let amount := jsOrZero actionAmount
  let currency := jsOrStr actionCurrency "INR".toList
  let psp := match data with
    | some d => jsOrStr d.razorpay_order_id "unknown".toList
    | none => "unknown".toList
  let caught : Str → ProcessOutcome := fun msg =>
    { response := { pspReference := psp, result := .CHARGE_FAILURE, amount := amount
                    actions := [], externalUrl := none
                    message := "Payment processing failed: ".toList ++ msg }
      logged := [{ timestamp := now, type := .process, status := .failed, amount := amount
                   currency := currency, razorpayOrderId := none, razorpayPaymentId := none
                   saleorOrderId := none, saleorTransactionId := none, error := some msg
                   rawResponse := none, mode := .test }] }
  match data with
  | none => caught "Missing Razorpay payment verification data".toList
  | some d =>
    match strTruthy d.razorpay_payment_id, strTruthy d.razorpay_order_id,
        strTruthy d.razorpay_signature with
    | some pid, some oid, some sig =>
      match getRazorpayClient settings envKeyId envKeySecret with
      | .error e => caught e
      | .ok _ =>
        match selectKeySecret settings envKeySecret with
        | .error e => caught e
        | .ok ks =>
          if ks = [] then
            caught ("Razorpay Key Secret is missing for the active mode".toList)
          else
            let generatedSignature := hmacSha256Hex ks (oid ++ '|' :: pid)
            if generatedSignature ≠ sig then
              { response := { pspReference := oid, result := .CHARGE_FAILURE, amount := amount
                              actions := [], externalUrl := none
                              message := "Payment signature verification failed".toList }
                logged := [{ timestamp := now, type := .process, status := .failed
                             amount := amount, currency := currency
                             razorpayOrderId := some oid, razorpayPaymentId := some pid
                             saleorOrderId := none, saleorTransactionId := none
                             error := some "Signature verification failed".toList
                             rawResponse := none, mode := settings.mode }] }
            else
              { response := { pspReference := pid, result := .CHARGE_SUCCESS
                              amount := toFixed2 amount
                              actions := ["REFUND".toList]
                              externalUrl := some
                                ("https://dashboard.razorpay.com/app/payments/".toList ++ pid)
                              message := "Payment verified and charged successfully".toList }
                logged := [{ timestamp := now, type := .process, status := .success
                             amount := amount, currency := currency
                             razorpayOrderId := some oid, razorpayPaymentId := some pid
                             saleorOrderId := none, saleorTransactionId := none
                             error := none, rawResponse := none, mode := settings.mode }] }
    | _, _, _ => caught "Missing Razorpay payment verification data".toList

-- ═══════════════════════════════════════════════════════════════════════════
-- transaction-charge-requested handler
-- ═══════════════════════════════════════════════════════════════════════════

/-- Live payment state at the provider: status by payment id. -/
abbrev ProviderSt := List (Str × Str)

/-- `razorpay.payments.fetch(id)`: the live status, or a thrown error for an
unknown id. -/
def providerFetch (st : ProviderSt) (pid : Str) : Except Str Str :=
  match st.lookup pid with
  | some status => .ok status
  | none => .error "The id provided does not exist".toList

/-- `razorpay.payments.capture(id, amount, currency)`: succeeds only on an
authorized payment, which becomes captured. -/
def providerCapture (st : ProviderSt) (pid : Str) : Except Str ProviderSt :=
  match st.lookup pid with
  | some s =>
    if s = "authorized".toList then
      .ok (st.map fun p => if p.1 = pid then (p.1, "captured".toList) else p)
    else .error "This payment cannot be captured".toList
  | none => .error "The id provided does not exist".toList

/-- The JSON body of the charge-requested response: HTTP 400 carries an
`errors` array, HTTP 200 a result code. -/
structure ChargeResponse where
  httpStatus : Nat
  pspReference : Option Str
  result : Option TransactionResultCode
  amount : ℚ
  message : Option Str
  errors : List Str
deriving DecidableEq, Repr

/-- Everything the charge handler produces or mutates. -/
structure ChargeOutcome where
  response : ChargeResponse
  provider : ProviderSt
  store : LogStore
  captureCalled : Bool
deriving DecidableEq, Repr

/-- The transaction-charge-requested handler (the `CHARGE_SUCCESS` /
`CHARGE_FAILURE` variant).  `settings` is the tenant's stored settings
record, `provider` the live provider state, `writeOk`/`store` the log
backend.  A missing psp reference is HTTP 400; everything else responds
HTTP 200, with the `catch` block logging a failed `charge` entry (mode
`"test"` unless `getRazorpayClient` already succeeded) and responding
`CHARGE_FAILURE` with amount 0. -/
def transactionChargeRequested (settings : RazorpaySettings) (envKeyId envKeySecret : Str)
    (provider : ProviderSt) (writeOk : Bool) (store : LogStore)
    (transactionId pspReference : Option Str) (actionAmount : Option ℚ)
    (now : Str) : ChargeOutcome :=
  let amount := jsOrZero actionAmount
  match strTruthy pspReference with
  | none =>
    { response := { httpStatus := 400, pspReference := none, result := none, amount := 0
                    message := none
                    errors := ["Missing Razorpay Payment ID (pspReference)".toList] }
      provider := provider, store := store, captureCalled := false }
  | some pid =>
    let caught : PaymentMode → Str → Bool → ChargeOutcome := fun mode msg captured =>
      { response := { httpStatus := 200, pspReference := some pid
                      result := some .CHARGE_FAILURE, amount := 0
                      message := some ("Capture failed: ".toList ++ msg), errors := [] }
        provider := provider
        store := logTransactionRun writeOk store
          { timestamp := now, type := .charge, status := .failed, amount := amount
            currency := "INR".toList, razorpayOrderId := none, razorpayPaymentId := some pid
            saleorOrderId := none, saleorTransactionId := transactionId, error := some msg
            rawResponse := none, mode := mode }
        captureCalled := captured }
    match getRazorpayClient settings envKeyId envKeySecret with
    | .error e => caught .test e false
    | .ok _ =>
      let mode := settings.mode
      match providerFetch provider pid with
      | .error e => caught mode e false
      | .ok status =>
        let captureResult : Except Str (ProviderSt × Bool) :=
          if status = "authorized".toList then
            (providerCapture provider pid).map fun p2 => (p2, true)
          else .ok (provider, false)
        match captureResult with
        | .error e => caught mode e true
        | .ok (provider2, captured) =>
          { response := { httpStatus := 200, pspReference := some pid
                          result := some .CHARGE_SUCCESS, amount := amount
                          message := none, errors := [] }
            provider := provider2
            store := logTransactionRun writeOk store
              { timestamp := now, type := .charge, status := .success, amount := amount
                currency := "INR".toList, razorpayOrderId := none
                razorpayPaymentId := some pid, saleorOrderId := none
                saleorTransactionId := transactionId, error := none
                rawResponse := if settings.debugMode then some status else none
                mode := mode }
            captureCalled := captured }

-- ═══════════════════════════════════════════════════════════════════════════
-- transaction-refund-requested handler
-- ═══════════════════════════════════════════════════════════════════════════

/-- The JSON body of the refund-requested response. -/
structure RefundResponse where
  httpStatus : Nat
  transactionId : Option Str
  amount : Option ℚ
  status : Option Str
  errors : List Str
deriving DecidableEq, Repr

/-- The transaction-refund-requested handler.  `refund pid paise` is the
outcome of `razorpay.payments.refund`; a missing psp reference is HTTP 400;
a successful refund responds 200 `{transactionId, amount, status:
"SUCCESS"}`; a failed refund is caught and answered with HTTP 400 and an
`errors` array.  No transaction-log entry is written on any path. -/
def transactionRefundRequested (refund : Str → Int → Except Str Unit)
    (transactionId pspReference : Option Str) (actionAmount : Option ℚ) :
    RefundResponse × List TransactionLogEntry :=
  let amount := jsOrZero actionAmount
  match strTruthy pspReference with
  | none =>
    ({ httpStatus := 400, transactionId := none, amount := none, status := none
       errors := ["Missing Razorpay Payment ID (externalReference) for refund".toList] }, [])
  | some pid =>
    match refund pid (jsRound (amount * 100)) with
    | .ok _ =>
      ({ httpStatus := 200, transactionId := transactionId, amount := some amount
         status := some "SUCCESS".toList, errors := [] }, [])
    | .error _ =>
      ({ httpStatus := 400, transactionId := none, amount := none, status := none
         errors := ["Failed to refund Razorpay payment".toList] }, [])

-- ═══════════════════════════════════════════════════════════════════════════
-- saleor-app.ts (invoices) : RobustAPL
-- ═══════════════════════════════════════════════════════════════════════════

/-- An APL auth record. -/
structure AuthRecord where
  saleorApiUrl : Str
  token : Str
  appId : Str
  jwks : Str
deriving DecidableEq, Repr

/-- The wrapped backend APL's store: records keyed by their
`saleorApiUrl`. -/
abbrev AplStore := List (Str × AuthRecord)

/-- Backend `apl.get(key)`. -/
def baseGet (st : AplStore) (k : Str) : Option AuthRecord :=
  st.lookup k

/-- Backend `apl.set(authData)`: upsert keyed by the record's
`saleorApiUrl`. -/
def baseSet (st : AplStore) (rec : AuthRecord) : AplStore :=
  (rec.saleorApiUrl, rec) :: st.filter fun p => p.1 ≠ rec.saleorApiUrl

/-- `getPrefixedUrl`: the app-scope tag in front of the tenant identity. -/
def tagUrl (appTag url : Str) : Str := appTag ++ ':' :: url

/-- The trailing-slash toggle of `RobustAPL.get`. -/
def toggleSlash (url : Str) : Str :=
  if url.getLast? = some '/' then url.dropLast else url ++ ['/']

/-- `RobustAPL.get`: exact tagged lookup, one retry with the trailing slash
toggled, and the returned record's `saleorApiUrl` rewritten to the queried
identity. -/
def robustGet (appTag : Str) (st : AplStore) (saleorApiUrl : Str) : Option AuthRecord :=
  let first := baseGet st (tagUrl appTag saleorApiUrl)
  let authData := match first with
    | some a => some a
    | none => baseGet st (tagUrl appTag (toggleSlash saleorApiUrl))
  match authData with
  | some a => some { a with saleorApiUrl := saleorApiUrl }
  | none => none

/-- `RobustAPL.set`: store under the tagged identity (also rewritten into
the record itself). -/
def robustSet (appTag : Str) (st : AplStore) (authData : AuthRecord) : AplStore :=
  baseSet st { authData with saleorApiUrl := tagUrl appTag authData.saleorApiUrl }

/-- A trivial cipher model satisfying the GCM laws: identity on bytes,
constant zero tag.  Used only to witness `c6_settings_crypt_roundtrip`. -/
def idGcm : GcmModel where
  encb := fun _ _ m => m
  decb := fun _ _ m => m
  tagf := fun _ _ _ => List.replicate 16 0

-- ═══════════════════════════════════════════════════════════════════════════
-- Concrete example inputs used by evaluation and witness theorems
-- ═══════════════════════════════════════════════════════════════════════════

/-- A settings record whose test key secret is the 8-character string
`abcdefgh`. -/
def c1FailingSettings : RazorpaySettings :=
  { defaultSettings "2024-01-01T00:00:00.000Z".toList with
    testKeySecret := "abcdefgh".toList }

/-- A test-mode settings record with test keys configured. -/
def testKeysSettings : RazorpaySettings :=
  { defaultSettings "t0".toList with
    testKeyId := "rzp_test_abc".toList
    testKeySecret := "k".toList }

/-- A minimal log entry of the given type and timestamp. -/
def exLogEntry (ty : TransactionType) (ts : Str) : TransactionLogEntry where
  timestamp := ts
  type := ty
  status := .success
  amount := 0
  currency := "INR".toList
  razorpayOrderId := none
  razorpayPaymentId := none
  saleorOrderId := none
  saleorTransactionId := none
  error := none
  rawResponse := none
  mode := .test

/-- A three-entry log partition: two charges, then one refund. -/
def c10Entries : List TransactionLogEntry :=
  [exLogEntry .charge "t3".toList, exLogEntry .charge "t2".toList,
   exLogEntry .refund "t1".toList]

/-- An auth record whose tenant identity ends in a double slash. -/
def c5Rec : AuthRecord where
  saleorApiUrl := "a//".toList
  token := "tok".toList
  appId := "app1".toList
  jwks := []

/-- An auth record with a single trailing slash in its tenant identity. -/
def c5WRec : AuthRecord where
  saleorApiUrl := "a/".toList
  token := "tk".toList
  appId := "ap".toList
  jwks := []

-- ═══════════════════════════════════════════════════════════════════════════
-- Theorems
-- ═══════════════════════════════════════════════════════════════════════════

-- ═══════════════════════════════════════════════════════════════════════════
-- Round-trip lemmas for the primitives
-- ═══════════════════════════════════════════════════════════════════════════

theorem char_toNat_lt (c : Char) : c.toNat < 1114112 := by
  have h := c.valid
  simp only [UInt32.isValidChar, Nat.isValidChar] at h
  rcases h with h | h
  · exact Nat.lt_trans h (by norm_num)
  · exact h.2

theorem ofNat_eq_self (c : Char) (X : Nat) (hX : X = c.toNat) :
    Char.ofNat X = c := by rw [hX, Char.ofNat_toNat]

theorem utf8Decode_encChar (c : Char) (rest : List Nat) :
    utf8Decode (utf8EncodeChar c ++ rest) = c :: utf8Decode rest := by
  have hv : c.toNat < 1114112 := char_toNat_lt c
  unfold utf8Decode utf8EncodeChar
  by_cases h1 : c.toNat < 128
  · simp [utf8DecodeAux, h1, Char.ofNat_toNat]
  · by_cases h2 : c.toNat < 2048
    · have e1 : ¬ (192 + c.toNat / 64 < 128) := by omega
      have e2 : 192 + c.toNat / 64 < 224 := by omega
      simp only [if_neg h1, if_pos h2, List.cons_append, List.nil_append]
      simp [utf8DecodeAux, e1, e2]
      apply ofNat_eq_self
      omega
    · by_cases h3 : c.toNat < 65536
      · have e1 : ¬ (224 + c.toNat / 4096 < 128) := by omega
        have e2 : ¬ (224 + c.toNat / 4096 < 224) := by omega
        have e3 : 224 + c.toNat / 4096 < 240 := by omega
        simp only [if_neg h1, if_neg h2, if_pos h3, List.cons_append, List.nil_append]
        simp [utf8DecodeAux, e1, e2, e3]
        apply ofNat_eq_self
        omega
      · have e1 : ¬ (240 + c.toNat / 262144 < 128) := by omega
        have e2 : ¬ (240 + c.toNat / 262144 < 224) := by omega
        have e3 : ¬ (240 + c.toNat / 262144 < 240) := by omega
        simp only [if_neg h1, if_neg h2, if_neg h3, List.cons_append, List.nil_append]
        simp [utf8DecodeAux, e1, e2, e3]
        apply ofNat_eq_self
        omega

theorem utf8Decode_utf8Str (s : Str) : utf8Decode (utf8Str s) = s := by
  induction s with
  | nil => simp [utf8Str, utf8Decode, utf8DecodeAux]
  | cons c cs ih =>
    have : utf8Str (c :: cs) = utf8EncodeChar c ++ utf8Str cs := by
      simp [utf8Str]
    rw [this, utf8Decode_encChar, ih]

theorem hexDigit_ne_colon (n : Nat) : hexDigit n ≠ ':' := by
  rcases Nat.lt_or_ge n 16 with h | h
  · interval_cases n <;> decide
  · unfold hexDigit
    rw [List.getD_eq_default _ _ (by simpa using h)]
    decide

theorem colon_not_mem_bytesToHex (bs : List Nat) : ':' ∉ bytesToHex bs := by
  intro hmem
  simp only [bytesToHex, List.mem_flatten, List.mem_map] at hmem
  obtain ⟨l, ⟨b, _, hbl⟩, hcl⟩ := hmem
  subst hbl
  simp only [byteHex, List.mem_cons, List.not_mem_nil, or_false] at hcl
  rcases hcl with h | h <;> exact hexDigit_ne_colon _ h.symm

theorem hexVal_hexDigit (n : Nat) (h : n < 16) : hexVal (hexDigit n) = n := by
  revert h
  revert n
  decide

theorem hexToBytes_bytesToHex (bs : List Nat) (h : ∀ b ∈ bs, b < 256) :
    hexToBytes (bytesToHex bs) = bs := by
  induction bs with
  | nil => rfl
  | cons b rest ih =>
    have hb : b < 256 := h b (by simp)
    have hrest : ∀ x ∈ rest, x < 256 := fun x hx => h x (by simp [hx])
    have hshape : bytesToHex (b :: rest) = hexDigit (b / 16) :: hexDigit (b % 16) :: bytesToHex rest := by
      simp [bytesToHex, byteHex]
    rw [hshape]
    show (hexVal (hexDigit (b / 16)) * 16 + hexVal (hexDigit (b % 16))) :: hexToBytes (bytesToHex rest) = b :: rest
    rw [hexVal_hexDigit _ (by omega), hexVal_hexDigit _ (by omega), ih hrest]
    congr 1
    omega

theorem splitOnChar_ne_nil (sep : Char) (s : Str) : splitOnChar sep s ≠ [] := by
  cases s with
  | nil => simp [splitOnChar]
  | cons c cs =>
    simp only [splitOnChar]
    rcases hm : splitOnChar sep cs with _ | ⟨h, t⟩
    · simp
    · dsimp only
      split <;> simp

theorem splitOnChar_no_sep (sep : Char) (a : Str) (h : sep ∉ a) : splitOnChar sep a = [a] := by
  induction a with
  | nil => rfl
  | cons x xs ih =>
    have hx : x ≠ sep := fun hc => h (by simp [hc])
    have hxs : sep ∉ xs := fun hc => h (by simp [hc])
    simp only [splitOnChar, ih hxs]
    simp [hx]

theorem splitOnChar_append (sep : Char) (a r : Str) (h : sep ∉ a) :
    splitOnChar sep (a ++ sep :: r) = a :: splitOnChar sep r := by
  induction a with
  | nil =>
    simp only [List.nil_append, splitOnChar]
    rcases hm : splitOnChar sep r with _ | ⟨hh, t⟩
    · exact absurd hm (splitOnChar_ne_nil sep r)
    · simp
  | cons x xs ih =>
    have hx : x ≠ sep := fun hc => h (by simp [hc])
    have hxs : sep ∉ xs := fun hc => h (by simp [hc])
    simp only [List.cons_append, splitOnChar, List.append_eq]
    rw [ih hxs]
    simp [hx]

theorem utf8EncodeChar_lt (c : Char) : ∀ b ∈ utf8EncodeChar c, b < 256 := by
  have hv := char_toNat_lt c
  intro b hb
  simp only [utf8EncodeChar] at hb
  split_ifs at hb with h1 h2 h3
  · simp at hb
    omega
  · simp at hb
    rcases hb with rfl | rfl <;> omega
  · simp at hb
    rcases hb with rfl | rfl | rfl <;> omega
  · simp at hb
    rcases hb with rfl | rfl | rfl | rfl <;> omega

theorem utf8Str_lt (s : Str) : ∀ b ∈ utf8Str s, b < 256 := by
  intro b hb
  simp only [utf8Str, List.mem_flatten, List.mem_map] at hb
  obtain ⟨l, ⟨c, _, rfl⟩, hbl⟩ := hb
  exact utf8EncodeChar_lt c b hbl

/-- C6: the settings encryption round-trips: for every non-empty string
`s`, `decrypt (encrypt s) = s`, and both functions map the empty string to
the empty string.  The AES-256-GCM primitive is abstracted as `C`; the
hypotheses are exactly node crypto's contract: deciphering inverts
enciphering on (well-formed UTF-8) byte input, and cipher, tag and iv are
byte buffers. -/
theorem c6_settings_crypt_roundtrip (C : GcmModel) (secretKey : Str) (iv : List Nat)
    (hkey : secretKey ≠ [])
    (hdec : ∀ m, (∀ b ∈ m, b < 256) →
      C.decb (sha256 (utf8Str secretKey)) iv (C.encb (sha256 (utf8Str secretKey)) iv m) = m)
    (hivb : ∀ b ∈ iv, b < 256)
    (hencb : ∀ m, (∀ b ∈ m, b < 256) →
      ∀ b ∈ C.encb (sha256 (utf8Str secretKey)) iv m, b < 256)
    (htagb : ∀ ct, (∀ b ∈ ct, b < 256) →
      ∀ b ∈ C.tagf (sha256 (utf8Str secretKey)) iv ct, b < 256) :
    (∀ s : Str, s ≠ [] →
      (encrypt C secretKey iv s).bind (decrypt C secretKey) = .ok s) ∧
    encrypt C secretKey iv [] = .ok [] ∧
    decrypt C secretKey [] = .ok [] := by
  have hkeyok : getEncryptionKey secretKey = .ok (sha256 (utf8Str secretKey)) := by
    simp [getEncryptionKey, hkey]
  refine ⟨?_, by simp [encrypt], by simp [decrypt]⟩
  intro s hs
  have hmb : ∀ b ∈ utf8Str s, b < 256 := utf8Str_lt s
  have hebb : ∀ b ∈ C.encb (sha256 (utf8Str secretKey)) iv (utf8Str s), b < 256 :=
    hencb _ hmb
  have htgb : ∀ b ∈ C.tagf (sha256 (utf8Str secretKey)) iv
      (C.encb (sha256 (utf8Str secretKey)) iv (utf8Str s)), b < 256 :=
    htagb _ hebb
  have henc : encrypt C secretKey iv s =
      .ok (bytesToHex iv ++ ':' :: bytesToHex (C.tagf (sha256 (utf8Str secretKey)) iv
        (C.encb (sha256 (utf8Str secretKey)) iv (utf8Str s))) ++ ':' ::
        bytesToHex (C.encb (sha256 (utf8Str secretKey)) iv (utf8Str s))) := by
    simp [encrypt, hs, hkeyok]
  rw [henc]
  have hct_ne : bytesToHex iv ++ ':' :: bytesToHex (C.tagf (sha256 (utf8Str secretKey)) iv
      (C.encb (sha256 (utf8Str secretKey)) iv (utf8Str s))) ++ ':' ::
      bytesToHex (C.encb (sha256 (utf8Str secretKey)) iv (utf8Str s)) ≠ [] := by
    intro hc
    rcases List.append_eq_nil.mp hc with ⟨-, h2⟩
    exact List.cons_ne_nil _ _ h2
  have hsplit : splitOnChar ':' (bytesToHex iv ++ ':' :: bytesToHex
      (C.tagf (sha256 (utf8Str secretKey)) iv
        (C.encb (sha256 (utf8Str secretKey)) iv (utf8Str s))) ++ ':' ::
      bytesToHex (C.encb (sha256 (utf8Str secretKey)) iv (utf8Str s))) =
      [bytesToHex iv,
       bytesToHex (C.tagf (sha256 (utf8Str secretKey)) iv
         (C.encb (sha256 (utf8Str secretKey)) iv (utf8Str s))),
       bytesToHex (C.encb (sha256 (utf8Str secretKey)) iv (utf8Str s))] := by
    rw [List.append_assoc, List.cons_append]
    rw [splitOnChar_append ':' _ _ (colon_not_mem_bytesToHex iv)]
    rw [splitOnChar_append ':' _ _ (colon_not_mem_bytesToHex _)]
    rw [splitOnChar_no_sep ':' _ (colon_not_mem_bytesToHex _)]
  show decrypt C secretKey _ = _
  unfold decrypt
  rw [if_neg hct_ne]
  simp only [hkeyok, Except.bind, hsplit, List.getD_cons_zero, List.getD_cons_succ,
    hexToBytes_bytesToHex iv hivb, hexToBytes_bytesToHex _ htgb,
    hexToBytes_bytesToHex _ hebb]
  simp [Bind.bind, Except.bind, pure, Except.pure, hdec _ hmb, utf8Decode_utf8Str]

/-- C6 witness: the round-trip theorem applied at a concrete cipher model,
key, iv and plaintext. -/
theorem c6_settings_crypt_roundtrip_witness :
    (encrypt idGcm "k".toList (List.replicate 12 0) "hi".toList).bind
      (decrypt idGcm "k".toList) = .ok "hi".toList ∧
    encrypt idGcm "k".toList (List.replicate 12 0) [] = .ok [] ∧
    decrypt idGcm "k".toList [] = .ok [] := by
  have h := c6_settings_crypt_roundtrip idGcm "k".toList (List.replicate 12 0)
    (by decide)
    (fun m _ => rfl)
    (by decide)
    (fun m hm => hm)
    (fun ct _ => by intro b hb; simp [idGcm, List.mem_replicate] at hb; omega)
  exact ⟨h.1 "hi".toList (by decide), h.2.1, h.2.2⟩

/-- C1: FALSIFIED BY THE CODE (code bug).  The claim — and the module's own
comments — say masked settings never contain more than 4 trailing
characters of a plaintext secret.  But `maskValue(value, 0)` computes
`"****" + value.slice(-0)`, and in JS `-0` is `0`, so `slice` returns the
whole string: for the 8-character test key secret `abcdefgh` the masked
projection is `****abcdefgh`, which ends with the entire plaintext secret
(a substring of length 8 > 4). -/
theorem c1_maskSettings_exposes_plaintext_secret :
    (maskSettings c1FailingSettings).testKeySecret
      = "****".toList ++ c1FailingSettings.testKeySecret ∧
    c1FailingSettings.testKeySecret <:+ (maskSettings c1FailingSettings).testKeySecret ∧
    4 < c1FailingSettings.testKeySecret.length := by decide

/-- C9: `getSettings` never throws: a backend failure returns the default
settings record, exactly as a missing record does — disabled, test mode,
no keys. -/
theorem c9_getSettings_swallows_backend_failures
    (dec : Str → Except Str Str) (loadTime e : Str) :
    getSettings dec loadTime (.error e) = defaultSettings loadTime ∧
    getSettings dec loadTime (.ok none) = defaultSettings loadTime ∧
    (defaultSettings loadTime).enabled = false ∧
    (defaultSettings loadTime).mode = .test ∧
    (defaultSettings loadTime).testKeyId = [] ∧
    (defaultSettings loadTime).testKeySecret = [] ∧
    (defaultSettings loadTime).liveKeyId = [] ∧
    (defaultSettings loadTime).liveKeySecret = [] :=
  ⟨rfl, rfl, rfl, rfl, rfl, rfl, rfl, rfl⟩

/-- C10: the type filter of `getTransactionLogs` is applied after the raw
page of at most `limit` entries is fetched, and `count` is the pre-filter
page size; concretely, on a 3-entry log (charge, charge, refund) a
`limit = 2` query filtered to `refund` returns zero logs with `count = 2`
and a next cursor, while the refund entry sits beyond the cursor. -/
theorem c10_log_filter_after_fetch
    (entries : List TransactionLogEntry) (start limit : Nat) (t : TransactionType) :
    (getTransactionLogs (.ok (dynamoQuery entries start limit)) (some t)).logs
      = ((entries.drop start).take limit).filter (fun l => l.type == t) ∧
    (getTransactionLogs (.ok (dynamoQuery entries start limit)) (some t)).count
      = ((entries.drop start).take limit).length ∧
    (getTransactionLogs (.ok (dynamoQuery c10Entries 0 2)) (some .refund)).logs = [] ∧
    (getTransactionLogs (.ok (dynamoQuery c10Entries 0 2)) (some .refund)).count = 2 ∧
    (getTransactionLogs (.ok (dynamoQuery c10Entries 0 2)) (some .refund)).nextKey
      = some 2 ∧
    (getTransactionLogs (.ok (dynamoQuery c10Entries 2 2)) (some .refund)).logs ≠ [] :=
  ⟨rfl, rfl, by decide, by decide, by decide, by decide⟩

/-- C8: `saveSettings` is a partial merge-on-write: every field absent from
the patch keeps its existing value, `updatedAt` is always rewritten to the
save time, the record `saveSettings` returns is exactly this merge of the
read-back record, and `getSettings` with no stored record returns the
defaults. -/
theorem c8_saveSettings_partial_merge
    (existing : RazorpaySettings) (patch : SettingsPatch) (now loadTime : Str)
    (dec enc : Str → Except Str Str) (backend : Except Str (Option StoredSettingsItem)) :
    (patch.enabled = none → (mergeSettings existing patch now).enabled = existing.enabled) ∧
    (patch.title = none → (mergeSettings existing patch now).title = existing.title) ∧
    (patch.description = none →
      (mergeSettings existing patch now).description = existing.description) ∧
    (patch.mode = none → (mergeSettings existing patch now).mode = existing.mode) ∧
    (patch.testKeyId = none →
      (mergeSettings existing patch now).testKeyId = existing.testKeyId) ∧
    (patch.testKeySecret = none →
      (mergeSettings existing patch now).testKeySecret = existing.testKeySecret) ∧
    (patch.testWebhookSecret = none →
      (mergeSettings existing patch now).testWebhookSecret = existing.testWebhookSecret) ∧
    (patch.liveKeyId = none →
      (mergeSettings existing patch now).liveKeyId = existing.liveKeyId) ∧
    (patch.liveKeySecret = none →
      (mergeSettings existing patch now).liveKeySecret = existing.liveKeySecret) ∧
    (patch.liveWebhookSecret = none →
      (mergeSettings existing patch now).liveWebhookSecret = existing.liveWebhookSecret) ∧
    (patch.paymentAction = none →
      (mergeSettings existing patch now).paymentAction = existing.paymentAction) ∧
    (patch.magicCheckout = none →
      (mergeSettings existing patch now).magicCheckout = existing.magicCheckout) ∧
    (patch.debugMode = none →
      (mergeSettings existing patch now).debugMode = existing.debugMode) ∧
    (mergeSettings existing patch now).updatedAt = now ∧
    (saveSettings dec enc loadTime backend patch now).map Prod.fst
      = (itemToStore enc (mergeSettings (getSettings dec loadTime backend) patch now)).map
          (fun _ => mergeSettings (getSettings dec loadTime backend) patch now) ∧
    getSettings dec loadTime (.ok none) = defaultSettings loadTime := by
  refine ⟨?_, ?_, ?_, ?_, ?_, ?_, ?_, ?_, ?_, ?_, ?_, ?_, ?_, rfl, ?_, rfl⟩
  case _ => intro h; simp [mergeSettings, h]
  case _ => intro h; simp [mergeSettings, h]
  case _ => intro h; simp [mergeSettings, h]
  case _ => intro h; simp [mergeSettings, h]
  case _ => intro h; simp [mergeSettings, h]
  case _ => intro h; simp [mergeSettings, h]
  case _ => intro h; simp [mergeSettings, h]
  case _ => intro h; simp [mergeSettings, h]
  case _ => intro h; simp [mergeSettings, h]
  case _ => intro h; simp [mergeSettings, h]
  case _ => intro h; simp [mergeSettings, h]
  case _ => intro h; simp [mergeSettings, h]
  case _ => intro h; simp [mergeSettings, h]
  case _ =>
    unfold saveSettings
    rcases hi : itemToStore enc (mergeSettings (getSettings dec loadTime backend) patch now)
      with e | item
    · simp [hi, Bind.bind, Except.bind, Except.map]
    · simp [hi, Bind.bind, Except.bind, Except.map, pure, Except.pure]

/-- C8 witness: the merge theorem applied at the all-absent patch. -/
theorem c8_saveSettings_partial_merge_witness :
    (mergeSettings (defaultSettings "t0".toList) SettingsPatch.empty "t1".toList).enabled
      = (defaultSettings "t0".toList).enabled ∧
    (mergeSettings (defaultSettings "t0".toList) SettingsPatch.empty "t1".toList).title
      = (defaultSettings "t0".toList).title ∧
    (mergeSettings (defaultSettings "t0".toList) SettingsPatch.empty "t1".toList).description
      = (defaultSettings "t0".toList).description ∧
    (mergeSettings (defaultSettings "t0".toList) SettingsPatch.empty "t1".toList).mode
      = (defaultSettings "t0".toList).mode ∧
    (mergeSettings (defaultSettings "t0".toList) SettingsPatch.empty "t1".toList).testKeyId
      = (defaultSettings "t0".toList).testKeyId ∧
    (mergeSettings (defaultSettings "t0".toList) SettingsPatch.empty "t1".toList).testKeySecret
      = (defaultSettings "t0".toList).testKeySecret ∧
    (mergeSettings (defaultSettings "t0".toList) SettingsPatch.empty
        "t1".toList).testWebhookSecret
      = (defaultSettings "t0".toList).testWebhookSecret ∧
    (mergeSettings (defaultSettings "t0".toList) SettingsPatch.empty "t1".toList).liveKeyId
      = (defaultSettings "t0".toList).liveKeyId ∧
    (mergeSettings (defaultSettings "t0".toList) SettingsPatch.empty "t1".toList).liveKeySecret
      = (defaultSettings "t0".toList).liveKeySecret ∧
    (mergeSettings (defaultSettings "t0".toList) SettingsPatch.empty
        "t1".toList).liveWebhookSecret
      = (defaultSettings "t0".toList).liveWebhookSecret ∧
    (mergeSettings (defaultSettings "t0".toList) SettingsPatch.empty "t1".toList).paymentAction
      = (defaultSettings "t0".toList).paymentAction ∧
    (mergeSettings (defaultSettings "t0".toList) SettingsPatch.empty "t1".toList).magicCheckout
      = (defaultSettings "t0".toList).magicCheckout ∧
    (mergeSettings (defaultSettings "t0".toList) SettingsPatch.empty "t1".toList).debugMode
      = (defaultSettings "t0".toList).debugMode ∧
    (mergeSettings (defaultSettings "t0".toList) SettingsPatch.empty "t1".toList).updatedAt
      = "t1".toList := by
  have h := c8_saveSettings_partial_merge (defaultSettings "t0".toList) SettingsPatch.empty
    "t1".toList "t0".toList (fun s => .ok s) (fun s => .ok s) (.ok none)
  exact ⟨h.1 rfl, h.2.1 rfl, h.2.2.1 rfl, h.2.2.2.1 rfl, h.2.2.2.2.1 rfl,
    h.2.2.2.2.2.1 rfl, h.2.2.2.2.2.2.1 rfl, h.2.2.2.2.2.2.2.1 rfl,
    h.2.2.2.2.2.2.2.2.1 rfl, h.2.2.2.2.2.2.2.2.2.1 rfl,
    h.2.2.2.2.2.2.2.2.2.2.1 rfl, h.2.2.2.2.2.2.2.2.2.2.2.1 rfl,
    h.2.2.2.2.2.2.2.2.2.2.2.2.1 rfl, h.2.2.2.2.2.2.2.2.2.2.2.2.2.1⟩

/-- C3 counterexample: for a refund whose provider operation fails, the
handler in the source responds HTTP 400 with an `errors` array — not an
HTTP-200 `REFUND_FAILURE` result — and writes no transaction-log entry,
contrary to the claim. -/
theorem c3_counterexample_http_error_no_log :
    (transactionRefundRequested (fun _ _ => .error "no charge".toList)
        (some "tr_1".toList) (some "pay_1".toList) (some 10)).1.httpStatus = 400 ∧
    (transactionRefundRequested (fun _ _ => .error "no charge".toList)
        (some "tr_1".toList) (some "pay_1".toList) (some 10)).1.status
      ≠ some "SUCCESS".toList ∧
    (transactionRefundRequested (fun _ _ => .error "no charge".toList)
        (some "tr_1".toList) (some "pay_1".toList) (some 10)).2 = [] := by
  refine ⟨rfl, by decide, rfl⟩

/-- C3 amended: for every refund whose provider operation fails, the
handler catches the error (it does not throw) and responds HTTP 400 with
the non-empty error message `Failed to refund Razorpay payment`; no
transaction-log entry is written. -/
theorem c3_refund_failure_caught (refund : Str → Int → Except Str Unit)
    (tid : Option Str) (pid : Str) (amt : Option ℚ) (err : Str)
    (hpid : pid ≠ [])
    (hfail : refund pid (jsRound (jsOrZero amt * 100)) = .error err) :
    transactionRefundRequested refund tid (some pid) amt
      = ({ httpStatus := 400, transactionId := none, amount := none, status := none
           errors := ["Failed to refund Razorpay payment".toList] }, []) ∧
    "Failed to refund Razorpay payment".toList ≠ [] := by
  refine ⟨?_, by decide⟩
  unfold transactionRefundRequested
  simp [strTruthy, hpid, hfail]

/-- C3 witness: the amended refund theorem at a concrete failing refund. -/
theorem c3_refund_failure_caught_witness :
    transactionRefundRequested (fun _ _ => .error "ERR".toList) (some "tr_1".toList)
        (some "pay_1".toList) (some 10)
      = ({ httpStatus := 400, transactionId := none, amount := none, status := none
           errors := ["Failed to refund Razorpay payment".toList] }, []) ∧
    "Failed to refund Razorpay payment".toList ≠ [] :=
  c3_refund_failure_caught (fun _ _ => .error "ERR".toList) (some "tr_1".toList)
    "pay_1".toList (some 10) "ERR".toList (by decide) rfl

set_option maxRecDepth 100000

/-- C7: `logTransaction` never raises: whatever the backend write outcome,
it completes normally (appending on success, leaving the store unchanged on
failure), and a payment-flow step appending a log entry — the charge
handler — produces the same response whether or not the log write
succeeds. -/
theorem c7_logTransaction_never_throws
    (writeOk : Bool) (store : LogStore) (entry : TransactionLogEntry)
    (settings : RazorpaySettings) (envKeyId envKeySecret : Str) (provider : ProviderSt)
    (store2 : LogStore) (tid psp : Option Str) (amt : Option ℚ) (now : Str)
    (w1 w2 : Bool) :
    logTransaction writeOk store entry
      = .ok (if writeOk then entry :: store else store) ∧
    (transactionChargeRequested settings envKeyId envKeySecret provider w1 store2
        tid psp amt now).response
      = (transactionChargeRequested settings envKeyId envKeySecret provider w2 store2
        tid psp amt now).response := by
  constructor
  · cases writeOk <;> rfl
  · unfold transactionChargeRequested
    cases hpsp : strTruthy psp with
    | none => rfl
    | some pid =>
      dsimp only
      cases hg : getRazorpayClient settings envKeyId envKeySecret with
      | error e => rfl
      | ok x =>
        dsimp only
        cases hf : providerFetch provider pid with
        | error e => rfl
        | ok status =>
          dsimp only
          by_cases hs : status = "authorized".toList
          · subst hs
            rw [if_pos rfl]
            cases hcap : Except.map (fun p2 => (p2, true)) (providerCapture provider pid) with
            | error e => rfl
            | ok pc =>
              obtain ⟨p2, cap⟩ := pc
              rfl
          · rw [if_neg hs]

/-- C2: in the process-session handler, with a configured key secret `k`,
the accepted client signature is exactly the hex HMAC-SHA256 of
`order_id + "|" + payment_id` under `k`: a matching signature yields
`CHARGE_SUCCESS` and exactly one `success` log entry, and any other
signature yields `CHARGE_FAILURE` and exactly one `failed` log entry. -/
theorem c2_process_accepts_exactly_hmac
    (settings : RazorpaySettings) (envKeyId envKeySecret : Str)
    (actionAmount : Option ℚ) (actionCurrency : Option Str)
    (pid oid sig now k : Str)
    (hpid : pid ≠ []) (hoid : oid ≠ []) (hsig : sig ≠ [])
    (hclient : (getRazorpayClient settings envKeyId envKeySecret).isOk = true)
    (hsel : selectKeySecret settings envKeySecret = .ok k)
    (hk : k ≠ []) :
    (sig = hmacSha256Hex k (oid ++ '|' :: pid) →
      (transactionProcessSession settings envKeyId envKeySecret actionAmount actionCurrency
          (some ⟨some pid, some oid, some sig⟩) now).response.result = .CHARGE_SUCCESS ∧
      (transactionProcessSession settings envKeyId envKeySecret actionAmount actionCurrency
          (some ⟨some pid, some oid, some sig⟩) now).logged.map TransactionLogEntry.status
        = [.success]) ∧
    (sig ≠ hmacSha256Hex k (oid ++ '|' :: pid) →
      (transactionProcessSession settings envKeyId envKeySecret actionAmount actionCurrency
          (some ⟨some pid, some oid, some sig⟩) now).response.result = .CHARGE_FAILURE ∧
      (transactionProcessSession settings envKeyId envKeySecret actionAmount actionCurrency
          (some ⟨some pid, some oid, some sig⟩) now).logged.map TransactionLogEntry.status
        = [.failed]) := by
  obtain ⟨kp, hg⟩ : ∃ kp, getRazorpayClient settings envKeyId envKeySecret = .ok kp := by
    rcases h : getRazorpayClient settings envKeyId envKeySecret with e | kp
    · rw [h] at hclient
      simp [Except.isOk, Except.toBool] at hclient
    · exact ⟨kp, rfl⟩
  unfold transactionProcessSession
  simp only [strTruthy, if_neg hpid, if_neg hoid, if_neg hsig, hg, hsel, if_neg hk]
  constructor
  · intro heq
    subst heq
    simp
  · intro hne
    have h2 : hmacSha256Hex k (oid ++ '|' :: pid) ≠ sig := fun hc => hne hc.symm
    simp [h2]

/-- C2 witness: with the test key secret `k` and `order_1` / `pay_1`, the
handler accepts exactly the HMAC hex signature and rejects a mutation of
it. -/
theorem c2_process_accepts_exactly_hmac_witness :
    (transactionProcessSession testKeysSettings [] [] (some 10) (some "INR".toList)
        (some ⟨some "pay_1".toList, some "order_1".toList,
          some (hmacSha256Hex "k".toList ("order_1".toList ++ '|' :: "pay_1".toList))⟩)
        "t1".toList).response.result = .CHARGE_SUCCESS ∧
    (transactionProcessSession testKeysSettings [] [] (some 10) (some "INR".toList)
        (some ⟨some "pay_1".toList, some "order_1".toList,
          some ('x' :: hmacSha256Hex "k".toList ("order_1".toList ++ '|' :: "pay_1".toList))⟩)
        "t1".toList).response.result = .CHARGE_FAILURE := by
  constructor
  · exact ((c2_process_accepts_exactly_hmac testKeysSettings [] [] (some 10)
      (some "INR".toList) "pay_1".toList "order_1".toList
      (hmacSha256Hex "k".toList ("order_1".toList ++ '|' :: "pay_1".toList))
      "t1".toList "k".toList (by decide) (by decide) (by decide) (by decide) rfl
      (by decide)).1 rfl).1
  · exact ((c2_process_accepts_exactly_hmac testKeysSettings [] [] (some 10)
      (some "INR".toList) "pay_1".toList "order_1".toList
      ('x' :: hmacSha256Hex "k".toList ("order_1".toList ++ '|' :: "pay_1".toList))
      "t1".toList "k".toList (by decide) (by decide) (List.cons_ne_nil _ _) (by decide) rfl
      (by decide)).2 (List.cons_ne_self _ _)).1

/-- The charge handler on a payment whose live status is not `authorized`:
capture is skipped, the provider state is untouched, and the response is
HTTP 200 `CHARGE_SUCCESS`. -/
theorem chargeRequested_settled (settings : RazorpaySettings)
    (envKeyId envKeySecret : Str) (provider : ProviderSt) (writeOk : Bool)
    (tid : Option Str) (pid : Str) (amt : Option ℚ) (now : Str) (status : Str) (kp : _)
    (hg : getRazorpayClient settings envKeyId envKeySecret = .ok kp)
    (hpid : pid ≠ [])
    (hfetch : provider.lookup pid = some status)
    (hstatus : status ≠ "authorized".toList) :
    ∀ st : LogStore,
      transactionChargeRequested settings envKeyId envKeySecret provider writeOk st
        tid (some pid) amt now
      = { response := { httpStatus := 200, pspReference := some pid
                        result := some .CHARGE_SUCCESS, amount := jsOrZero amt
                        message := none, errors := [] }
          provider := provider
          store := logTransactionRun writeOk st
            { timestamp := now, type := .charge, status := .success, amount := jsOrZero amt
              currency := "INR".toList, razorpayOrderId := none
              razorpayPaymentId := some pid, saleorOrderId := none
              saleorTransactionId := tid, error := none
              rawResponse := if settings.debugMode then some status else none
              mode := settings.mode }
          captureCalled := false } := by
  intro st
  unfold transactionChargeRequested
  simp only [strTruthy, if_neg hpid, hg, providerFetch, hfetch, if_neg hstatus]

/-- C4: the charge handler is idempotent for already-settled payments: when
the live provider status of the payment is anything other than
`authorized`, the handler skips the capture call, leaves the provider state
unchanged and responds `CHARGE_SUCCESS`; running it a second time on the
resulting state responds `CHARGE_SUCCESS` again. -/
theorem c4_charge_idempotent_on_settled
    (settings : RazorpaySettings) (envKeyId envKeySecret : Str)
    (provider : ProviderSt) (writeOk : Bool) (store : LogStore)
    (tid : Option Str) (pid : Str) (amt : Option ℚ) (now : Str) (status : Str)
    (hclient : (getRazorpayClient settings envKeyId envKeySecret).isOk = true)
    (hpid : pid ≠ [])
    (hfetch : provider.lookup pid = some status)
    (hstatus : status ≠ "authorized".toList) :
    (transactionChargeRequested settings envKeyId envKeySecret provider writeOk store
        tid (some pid) amt now).response.result = some .CHARGE_SUCCESS ∧
    (transactionChargeRequested settings envKeyId envKeySecret provider writeOk store
        tid (some pid) amt now).response.httpStatus = 200 ∧
    (transactionChargeRequested settings envKeyId envKeySecret provider writeOk store
        tid (some pid) amt now).captureCalled = false ∧
    (transactionChargeRequested settings envKeyId envKeySecret provider writeOk store
        tid (some pid) amt now).provider = provider ∧
    (transactionChargeRequested settings envKeyId envKeySecret
        (transactionChargeRequested settings envKeyId envKeySecret provider writeOk store
          tid (some pid) amt now).provider writeOk
        (transactionChargeRequested settings envKeyId envKeySecret provider writeOk store
          tid (some pid) amt now).store
        tid (some pid) amt now).response.result = some .CHARGE_SUCCESS := by
  obtain ⟨kp, hg⟩ : ∃ kp, getRazorpayClient settings envKeyId envKeySecret = .ok kp := by
    rcases h : getRazorpayClient settings envKeyId envKeySecret with e | kp
    · rw [h] at hclient
      simp [Except.isOk, Except.toBool] at hclient
    · exact ⟨kp, rfl⟩
  have hgen := chargeRequested_settled settings envKeyId envKeySecret provider writeOk
    tid pid amt now status kp hg hpid hfetch hstatus
  rw [hgen store]
  refine ⟨rfl, rfl, rfl, rfl, ?_⟩
  rw [hgen _]

/-- C4 witness: charging an already-captured payment twice yields
`CHARGE_SUCCESS` both times. -/
theorem c4_charge_idempotent_on_settled_witness :
    (transactionChargeRequested testKeysSettings [] []
        [("pay_1".toList, "captured".toList)] true []
        (some "tr_1".toList) (some "pay_1".toList) (some 10) "t1".toList).response.result
      = some .CHARGE_SUCCESS ∧
    (transactionChargeRequested testKeysSettings [] []
        [("pay_1".toList, "captured".toList)] true []
        (some "tr_1".toList) (some "pay_1".toList) (some 10) "t1".toList).response.httpStatus
      = 200 ∧
    (transactionChargeRequested testKeysSettings [] []
        [("pay_1".toList, "captured".toList)] true []
        (some "tr_1".toList) (some "pay_1".toList) (some 10) "t1".toList).captureCalled
      = false ∧
    (transactionChargeRequested testKeysSettings [] []
        [("pay_1".toList, "captured".toList)] true []
        (some "tr_1".toList) (some "pay_1".toList) (some 10) "t1".toList).provider
      = [("pay_1".toList, "captured".toList)] ∧
    (transactionChargeRequested testKeysSettings [] []
        (transactionChargeRequested testKeysSettings [] []
          [("pay_1".toList, "captured".toList)] true []
          (some "tr_1".toList) (some "pay_1".toList) (some 10) "t1".toList).provider true
        (transactionChargeRequested testKeysSettings [] []
          [("pay_1".toList, "captured".toList)] true []
          (some "tr_1".toList) (some "pay_1".toList) (some 10) "t1".toList).store
        (some "tr_1".toList) (some "pay_1".toList) (some 10) "t1".toList).response.result
      = some .CHARGE_SUCCESS :=
  c4_charge_idempotent_on_settled testKeysSettings [] []
    [("pay_1".toList, "captured".toList)] true [] (some "tr_1".toList) "pay_1".toList
    (some 10) "t1".toList "captured".toList (by decide) (by decide) (by decide) (by decide)

theorem dropLast_append_of_getLast (l : Str) (c : Char) (h : l.getLast? = some c) :
    l.dropLast ++ [c] = l := by
  have hne : l ≠ [] := by
    intro h0
    subst h0
    simp at h
  rw [List.getLast?_eq_getLast _ hne, Option.some_inj] at h
  rw [← h]
  exact List.dropLast_append_getLast hne

theorem toggleSlash_ne (u : Str) : toggleSlash u ≠ u := by
  unfold toggleSlash
  by_cases h : u.getLast? = some '/'
  · rw [if_pos h]
    have hne : u ≠ [] := by
      intro h0
      subst h0
      simp at h
    intro hc
    have hlen := congrArg List.length hc
    have hpos : 0 < u.length := List.length_pos.mpr hne
    simp [List.length_dropLast] at hlen
    omega
  · rw [if_neg h]
    intro hc
    have hlen := congrArg List.length hc
    simp at hlen

theorem toggleSlash_invol (u : Str)
    (h : ¬ (u.getLast? = some '/' ∧ u.dropLast.getLast? = some '/')) :
    toggleSlash (toggleSlash u) = u := by
  unfold toggleSlash
  by_cases h1 : u.getLast? = some '/'
  · rw [if_pos h1]
    have h2 : ¬ u.dropLast.getLast? = some '/' := fun hc => h ⟨h1, hc⟩
    rw [if_neg h2]
    exact dropLast_append_of_getLast u '/' h1
  · rw [if_neg h1]
    have h3 : (u ++ ['/']).getLast? = some '/' := by simp
    rw [if_pos h3]
    simp

theorem tagUrl_inj (appTag u v : Str) (h : tagUrl appTag u = tagUrl appTag v) : u = v := by
  unfold tagUrl at h
  have h2 := List.append_cancel_left h
  simpa using h2

theorem lookup_filter_none (l : AplStore) (k : Str) (p : Str × AuthRecord → Bool)
    (h : l.lookup k = none) : (l.filter p).lookup k = none := by
  induction l with
  | nil => simp
  | cons a rest ih =>
    obtain ⟨ak, av⟩ := a
    by_cases hk : (k == ak) = true
    · simp [List.lookup, hk] at h
    · have hk2 : (k == ak) = false := by simpa using hk
      simp only [List.lookup, hk2] at h
      rcases hp : p (ak, av) with _ | _
      · simp only [List.filter_cons, hp, cond_false]
        exact ih h
      · simp only [List.filter_cons, hp, cond_true]
        simp only [List.lookup, hk2]
        exact ih h

/-- C5 (amended): once a record has been stored for tenant identity `u`
(with no pre-existing record at the toggled identity, and `u` not ending in
a double slash), `get u` returns the stored record and `get (toggle u)`
returns it too, up to the `saleorApiUrl` field, which the wrapper rewrites
to the queried identity; and on a double miss the wrapper returns null
after exactly one toggled retry. -/
theorem c5_robust_apl_slash_tolerant (appTag : Str) (st : AplStore) (rec : AuthRecord)
    (u : Str) (st2 : AplStore) (u2 : Str)
    (hrec : rec.saleorApiUrl = u)
    (hnds : ¬ (u.getLast? = some '/' ∧ u.dropLast.getLast? = some '/'))
    (hclean : st.lookup (tagUrl appTag (toggleSlash u)) = none)
    (hmiss1 : baseGet st2 (tagUrl appTag u2) = none)
    (hmiss2 : baseGet st2 (tagUrl appTag (toggleSlash u2)) = none) :
    robustGet appTag (robustSet appTag st rec) u = some rec ∧
    robustGet appTag (robustSet appTag st rec) (toggleSlash u)
      = some { rec with saleorApiUrl := toggleSlash u } ∧
    robustGet appTag st2 u2 = none := by
  subst hrec
  refine ⟨?_, ?_, ?_⟩
  · unfold robustGet robustSet baseGet baseSet
    simp [List.lookup]
  · have hne : (tagUrl appTag (toggleSlash rec.saleorApiUrl)
        == tagUrl appTag rec.saleorApiUrl) = false := by
      rw [beq_eq_false_iff_ne]
      intro hc
      exact toggleSlash_ne rec.saleorApiUrl (tagUrl_inj _ _ _ hc)
    have hrest : ((st.filter fun p =>
        p.1 ≠ tagUrl appTag rec.saleorApiUrl).lookup
          (tagUrl appTag (toggleSlash rec.saleorApiUrl))) = none :=
      lookup_filter_none _ _ _ hclean
    unfold robustGet robustSet baseGet baseSet
    simp only [List.lookup, hne, hrest, toggleSlash_invol _ hnds, beq_self_eq_true]
  · unfold robustGet
    simp [hmiss1, hmiss2]

/-- C5 counterexample: for the tenant identity `a//` (ending in a double
slash), storing the record and then querying with the trailing slash
toggled returns `null`, while the exact query returns the record — the two
reads do not agree, contrary to the claim. -/
theorem c5_counterexample_double_slash :
    robustGet "invoices".toList (robustSet "invoices".toList [] c5Rec) "a//".toList
      = some c5Rec ∧
    robustGet "invoices".toList (robustSet "invoices".toList [] c5Rec)
      (toggleSlash "a//".toList) = none := by decide

/-- C5 witness: the amended theorem at the identity `a/`, an empty backing
store, and the double-miss identity `b`. -/
theorem c5_robust_apl_slash_tolerant_witness :
    robustGet "invoices".toList (robustSet "invoices".toList [] c5WRec) "a/".toList
      = some c5WRec ∧
    robustGet "invoices".toList (robustSet "invoices".toList [] c5WRec)
        (toggleSlash "a/".toList)
      = some { c5WRec with saleorApiUrl := toggleSlash "a/".toList } ∧
    robustGet "invoices".toList ([] : AplStore) "b".toList = none :=
  c5_robust_apl_slash_tolerant "invoices".toList [] c5WRec "a/".toList [] "b".toList
    rfl (by decide) rfl rfl rfl

end BrightStore
